import Mathlib

/-!
Verification development for the ESP32 web build server (`src/server.js`).

The file shallowly embeds the build-orchestration core of the server:
the process runner `runIdfCommand` (lines 81-118), the log broadcaster
`broadcastLog` (lines 71-78), the in-memory build ledger (`builds`,
lines 57 and 749-764), the HTTP operation handlers (`set-target` 227-251,
`build` 254-365, `fullclean` 368-384, `size`/`size-components`/
`size-files`/`reconfigure`/`list-components` 387-744) and the artifact /
flash-offset resolution performed inside the build handler (lines 283-344).

JavaScript strings become Lean `String`, the `builds` `Map` becomes an
association list with `Map.set` / `Map.get` semantics, promise
resolution/rejection becomes `Except`, and the asynchronous behaviour of
one spawned external process is an explicit `ProcBehavior` value: the
ordered list of output chunks it emitted plus how it terminated.
Wall-clock timestamps (`Date.now()`, the `timestamp` field of broadcast
log messages) are abstracted to `Nat` parameters / omitted, since no
claim depends on clock values.
-/

/-! ## String utilities mirroring the JavaScript string operations used -/

/-- Whether `pat` occurs as a contiguous sublist of `s` (JavaScript `String.includes`). -/
def containsSubList (pat : List Char) : List Char → Bool
  | [] => pat.isPrefixOf ([] : List Char)
  | c :: rest => pat.isPrefixOf (c :: rest) || containsSubList pat rest

/-- JavaScript `s.includes(pat)`. -/
def strContains (s pat : String) : Bool :=
  containsSubList pat.data s.data

/-- Replace the first occurrence of `pat` (non-empty) by `repl`
(JavaScript `String.prototype.replace` with string arguments replaces only
the first occurrence). -/
def replaceFirstList (pat repl : List Char) : List Char → List Char
  | [] => []
  | c :: rest =>
    if pat.isPrefixOf (c :: rest) then repl ++ (c :: rest).drop pat.length
    else c :: replaceFirstList pat repl rest

/-- JavaScript `s.replace(pat, repl)` for non-empty string `pat`. -/
def replaceFirst (s pat repl : String) : String :=
  ⟨replaceFirstList pat.data repl.data s.data⟩

/-- JavaScript `s.endsWith(pat)`. -/
def strEndsWith (s pat : String) : Bool :=
  pat.data.isSuffixOf s.data

def isHexDigitChar (c : Char) : Bool :=
  (('0' ≤ c && c ≤ '9') || ('a' ≤ c && c ≤ 'f') || ('A' ≤ c && c ≤ 'F'))

def hexDigitVal (c : Char) : Nat :=
  if '0' ≤ c && c ≤ '9' then c.toNat - '0'.toNat
  else if 'a' ≤ c && c ≤ 'f' then c.toNat - 'a'.toNat + 10
  else if 'A' ≤ c && c ≤ 'F' then c.toNat - 'A'.toNat + 10
  else 0

def parseHexDigits : List Char → Nat → Nat
  | [], acc => acc
  | c :: rest, acc =>
    if isHexDigitChar c then parseHexDigits rest (acc * 16 + hexDigitVal c) else acc

/-- JavaScript `parseInt(s, 16)` on the well-formed hexadecimal offset
strings used by the server (optional `0x`/`0X` prefix followed by hex
digits). -/
def parseIntHex (s : String) : Nat :=
  let cs := s.data
  let cs := if cs.take 2 = ['0', 'x'] ∨ cs.take 2 = ['0', 'X'] then cs.drop 2 else cs
  parseHexDigits cs 0

/-! ## Process Runner: `runIdfCommand` (server.js lines 81-118)

`runIdfCommand(projectPath, command, buildId)` spawns a shell, forwards
every stdout/stderr chunk to `broadcastLog` tagged with `buildId`,
accumulates all chunks into the single string `output`, and settles the
returned promise from the `close` / `error` events of the child process:
exit code `0` resolves with `{success: true, output}`, a non-zero exit
code rejects with `new Error("Command failed with code " + code + "\n" +
output)`, and a spawn failure rejects with the spawn error object itself. -/

/-- Source stream of one output chunk of the child process. -/
inductive StdStream where
  | stdout
  | stderr
deriving DecidableEq

/-- One `data` event of the child process. -/
structure Chunk where
  stream : StdStream
  data : String
deriving DecidableEq

/-- How the spawned process terminated: a `close` event carrying the exit
code, or an `error` event (the program could not be started). -/
inductive ProcTermination where
  | closed (code : Int)
  | spawnError (msg : String)
deriving DecidableEq

/-- Observable behaviour of one spawned external command: the chunks it
emitted, in emission order, and its termination event. -/
structure ProcBehavior where
  chunks : List Chunk
  term : ProcTermination
deriving DecidableEq

/-- The `output` accumulator of `runIdfCommand`: every chunk appended in
emission order (`output += msg` on each data event). -/
def accumOutput (chunks : List Chunk) : String :=
  chunks.foldl (fun acc c => acc ++ c.data) ""

/-- The value a rejected `runIdfCommand` promise carries: either the
`Error` the runner constructs for a non-zero exit code, or the spawn
error object passed through unchanged.  The two are distinct kinds of
rejection value in the source (a fresh `Error` with a synthesized message
vs. the system error emitted by `spawn`). -/
inductive JsError where
  | commandFailed (code : Int) (output : String)
  | spawnFailure (msg : String)
deriving DecidableEq

/-- The message string read in each handler catch block. -/
def JsError.message : JsError → String
  | .commandFailed code output =>
      "Command failed with code " ++ toString code ++ "\n" ++ output
  | .spawnFailure msg => msg

/-- Settlement of the promise returned by `runIdfCommand` (lines 106-116):
`close` with code `0` resolves with the accumulated output, `close` with
any other code rejects with the synthesized error, `error` rejects with
the spawn error. -/
def runIdfCommandResult (pb : ProcBehavior) : Except JsError String :=
  match pb.term with
  | .closed code =>
      if code == 0 then .ok (accumOutput pb.chunks)
      else .error (.commandFailed code (accumOutput pb.chunks))
  | .spawnError msg => .error (.spawnFailure msg)

/-- One message broadcast to every connected WebSocket client
(`broadcastLog`, lines 71-78).  The source also attaches a wall-clock
`timestamp`, abstracted away here. -/
structure LogEvent where
  buildId : String
  message : String
  type : String
deriving DecidableEq

/-- The log events `runIdfCommand` publishes for one command run: the
command echo (line 85) followed by one event per output chunk, tagged
`stdout` or `stderr` (lines 94-104).  Every event carries the `buildId`
the runner was invoked with. -/
def runIdfCommandLogs (command buildId : String) (pb : ProcBehavior) : List LogEvent :=
  ⟨buildId, "$ " ++ command, "command"⟩ ::
    pb.chunks.map (fun c =>
      ⟨buildId, c.data, match c.stream with | .stdout => "stdout" | .stderr => "stderr"⟩)

/-! ## Build/Task Ledger: the `builds` Map (server.js line 57, 749-764)

`builds` is a plain JavaScript `Map` from build id to a record object.
We embed it as an insertion-ordered association list with `Map.set`
semantics (update in place when the key exists, append otherwise) and
`Map.get` semantics (first — unique — binding for the key). -/

/-- A record stored in the `builds` map by the build handler.  The
initial record (line 263) has the first four fields; a successful build
adds `binaries`, `manifestUrl`, `endTime` (line 346); a failed build adds
`error`, `endTime` (line 357).  `none`/`[]` stand for an absent field. -/
structure BuildRecord where
  projectId : String
  status : String
  target : String
  startTime : Nat
  binaries : Option (List (String × String)) := none
  manifestUrl : Option String := none
  error : Option String := none
  endTime : Option Nat := none
deriving DecidableEq

/-- JavaScript `Map.prototype.set`: overwrite the existing binding in
place, or append a new one.  Note it never rejects or ignores a write. -/
def buildsSet (ledger : List (String × BuildRecord)) (id : String) (r : BuildRecord) :
    List (String × BuildRecord) :=
  if ledger.any (fun p => p.1 == id) then
    ledger.map (fun p => if p.1 == id then (id, r) else p)
  else ledger ++ [(id, r)]

/-- First binding for a key in an association list. -/
def assocGet : List (String × BuildRecord) → String → Option BuildRecord
  | [], _ => none
  | p :: rest, id => if p.1 == id then some p.2 else assocGet rest id

/-- JavaScript `Map.prototype.get`. -/
def buildsGet (ledger : List (String × BuildRecord)) (id : String) : Option BuildRecord :=
  assocGet ledger id

/-- Endpoint `GET /api/build/:buildId` (lines 749-755): 404 with
`"Build não encontrado"` when the id is not in the map, otherwise the
stored record. -/
def getBuildEndpoint (ledger : List (String × BuildRecord)) (id : String) :
    Except String BuildRecord :=
  match buildsGet ledger id with
  | none => .error "Build não encontrado"
  | some b => .ok b

/-- Apply the successive `builds.set(buildId, ...)` calls of a handler to a
ledger, in order. -/
def applyWrites (ledger : List (String × BuildRecord)) (id : String)
    (ws : List BuildRecord) : List (String × BuildRecord) :=
  ws.foldl (fun l w => buildsSet l id w) ledger

/-! ## Project state and target selection -/

/-- The slice of a registered project record (lines 168-179) the build
operations consult: its id, its `name` (used in the manifest) and its
mutable `target` field (`null` at upload time, line 177).  The other
fields (`path`, `hasMain`, ...) never influence the modelled control
flow. -/
structure Project where
  id : String
  name : String
  target : Option String
deriving DecidableEq

/-- The valid target list of the set-target endpoint (line 234). -/
def validTargets : List String :=
  ["esp32", "esp32s2", "esp32s3", "esp32c3", "esp32c6", "esp32h2"]

/-- JavaScript `a || b` on possibly-absent strings: `a` wins unless it is
absent (`undefined`/`null`) or the empty string (both falsy). -/
def jsOrS (a b : Option String) : Option String :=
  match a with
  | some s => if s == "" then b else some s
  | none => b

/-- Line 261: `const target = req.body.target || project.target || "esp32"` (the
source writes the fallback as a single-quoted literal). -/
def chooseTarget (reqTarget projTarget : Option String) : String :=
  (jsOrS reqTarget (jsOrS projTarget (some "esp32"))).getD "esp32"

/-- Line 274: `if (!project.target || project.target !== target)` — the
recorded target is falsy (unset or empty) or differs from the requested
one. -/
def needSetTarget (projTarget : Option String) (target : String) : Bool :=
  match projTarget with
  | none => true
  | some t => t == "" || t != target

/-! ## Artifact resolution inside the build handler (lines 283-344) -/

/-- The filesystem facts the artifact phase reads: the names returned by
`readdir(buildDir)`, whether `bootloader/bootloader.bin` and
`partition_table/partition-table.bin` exist under the build directory,
and the parsed `flash_args` table — `none` when the file is absent,
otherwise the association list produced by lines 320-326, which maps
`path.basename` of each listed file to its hexadecimal offset string. -/
structure BuildFsView where
  files : List String
  bootloaderExists : Bool
  partTableExists : Bool
  flashArgs : Option (List (String × String))
deriving DecidableEq

/-- The insertion order of the `binaries` object (lines 290-305): every
top-level `*.bin` of the build directory, then each of the two extra
files that exists, under its name with the first `/` replaced by `-`. -/
def binariesNames (v : BuildFsView) : List String :=
  v.files.filter (fun f => strEndsWith f ".bin")
    ++ (if v.bootloaderExists then [replaceFirst "bootloader/bootloader.bin" "/" "-"] else [])
    ++ (if v.partTableExists then [replaceFirst "partition_table/partition-table.bin" "/" "-"] else [])

/-- Line 330: the key looked up in `flashArgs` is
the name with only its first `-` replaced by `/` (`name.replace`). -/
def dashToSlash (name : String) : String :=
  replaceFirst name "-" "/"

/-- Lines 330-335: the offset string for one artifact name — the
`flash_args` entry under the transformed name if present, else the fixed
table (`bootloader` → `0x1000`, `partition` → `0x8000`, any other `.bin`
→ `0x10000`), else none (the artifact is skipped). -/
def resolveOffsetStr (flashArgs : List (String × String)) (name : String) : Option String :=
  match flashArgs.lookup (dashToSlash name) with
  | some o => some o
  | none =>
    if strContains name "bootloader" then some "0x1000"
    else if strContains name "partition" then some "0x8000"
    else if strEndsWith name ".bin" then some "0x10000"
    else none

/-- One entry of `manifest.builds[0].parts` (lines 336-341). -/
structure ManifestPart where
  path : String
  offset : Nat
deriving DecidableEq

/-- Lines 329-342: one part per binary name that resolves to an offset,
in the insertion order of the `binaries` object, with the offset parsed
as hexadecimal. -/
def manifestParts (flashArgs : List (String × String)) (names : List String) :
    List ManifestPart :=
  names.filterMap (fun name =>
    (resolveOffsetStr flashArgs name).map (fun o => ⟨name, parseIntHex o⟩))

/-- The `manifest.json` record written on success (lines 308-314):
`chipFamily` is the upper-cased target with its first `ESP32` substring
replaced by `ESP32` (a no-op rewrite kept for fidelity). -/
structure FlashManifest where
  name : String
  chipFamily : String
  parts : List ManifestPart
deriving DecidableEq

def mkFlashManifest (projectName target : String)
    (flashArgs : List (String × String)) (names : List String) : FlashManifest :=
  ⟨projectName, replaceFirst target.toUpper "ESP32" "ESP32", manifestParts flashArgs names⟩

/-! ## The build handler: `POST /api/project/:projectId/build` (lines 254-365)

The handler is modelled for a known project (the 404 branch of line 256
returns before any unit is created).  Its asynchronous environment — the
behaviour of the `idf.py set-target` child process (if one is spawned),
the behaviour of the `idf.py build` child process (if reached) and the
state of the build directory afterwards — is passed in as data. -/

structure BuildEnv where
  setTargetRun : ProcBehavior
  buildRun : ProcBehavior
  fsv : BuildFsView
  t0 : Nat
  t1 : Nat
deriving DecidableEq

/-- Everything observable about one execution of the build handler:
the final `builds` record for its id, the successive `builds.set` writes
it performed, the final value of `project.target`, the commands passed to
`runIdfCommand` in order, every log event broadcast, and the manifest it
wrote (`none` when the artifact step was never reached). -/
structure BuildResult where
  record : BuildRecord
  ledgerWrites : List BuildRecord
  projectTarget : Option String
  commands : List String
  logs : List LogEvent
  manifest : Option FlashManifest
deriving DecidableEq

/-- The catch block (lines 356-364): spread of the current record plus
status `failed`, the error message, and `endTime`. -/
def failRecord (rec0 : BuildRecord) (msg : String) (t1 : Nat) : BuildRecord :=
  { rec0 with status := "failed", error := some msg, endTime := some t1 }

/-- Lines 280-354: run `idf.py build` and, on a clean exit, the artifact
phase.  `newTarget` is the value `project.target` holds at this point
(already updated when the set-target sub-command ran and succeeded),
`cmds`/`logs0` accumulate the set-target sub-phase. -/
def buildPhase (project : Project) (buildId : String) (rec0 : BuildRecord)
    (newTarget : Option String) (cmds : List String) (logs0 : List LogEvent)
    (env : BuildEnv) : BuildResult :=
  let bLogs := runIdfCommandLogs "idf.py build" buildId env.buildRun
  match runIdfCommandResult env.buildRun with
  | .error e =>
    let recF := failRecord rec0 e.message env.t1
    { record := recF, ledgerWrites := [rec0, recF], projectTarget := newTarget,
      commands := cmds ++ ["idf.py build"],
      logs := logs0 ++ bLogs ++ [⟨buildId, "❌ Build falhou: " ++ e.message, "error"⟩],
      manifest := none }
  | .ok _ =>
    let names := binariesNames env.fsv
    let binaries := names.map (fun n => (n, "/builds/" ++ buildId ++ "/" ++ n))
    let manifest := mkFlashManifest project.name rec0.target (env.fsv.flashArgs.getD []) names
    let recS := { rec0 with
                  status := "success", binaries := some binaries,
                  manifestUrl := some ("/builds/" ++ buildId ++ "/manifest.json"),
                  endTime := some env.t1 }
    { record := recS, ledgerWrites := [rec0, recS], projectTarget := newTarget,
      commands := cmds ++ ["idf.py build"],
      logs := logs0 ++ bLogs ++ [⟨buildId, "✅ Build concluído com sucesso!", "success"⟩],
      manifest := some manifest }

/-- Lines 254-365 for a known project: choose the effective target
(line 261), register the unit as `building` (line 263), respond with the
build id (line 270), then — in the `try` — run the set-target sub-command
when the recorded target is falsy or differs (lines 274-277), and
continue with the build phase; any rejection lands in the `catch`
(lines 356-364). -/
def buildHandler (project : Project) (buildId : String) (reqTarget : Option String)
    (env : BuildEnv) : BuildResult :=
  let target := chooseTarget reqTarget project.target
  let rec0 : BuildRecord :=
    { projectId := project.id, status := "building", target := target, startTime := env.t0 }
  let stCmd := "idf.py set-target " ++ target
  if needSetTarget project.target target then
    let stLogs := runIdfCommandLogs stCmd buildId env.setTargetRun
    match runIdfCommandResult env.setTargetRun with
    | .error e =>
      let recF := failRecord rec0 e.message env.t1
      { record := recF, ledgerWrites := [rec0, recF], projectTarget := project.target,
        commands := [stCmd],
        logs := stLogs ++ [⟨buildId, "❌ Build falhou: " ++ e.message, "error"⟩],
        manifest := none }
    | .ok _ => buildPhase project buildId rec0 (some target) [stCmd] stLogs env
  else
    buildPhase project buildId rec0 project.target [] [] env

/-! ## The other operation handlers

None of them ever writes to the `builds` map: they synthesize a build id,
respond with it, run their command and only broadcast the outcome. -/

instance {ε α : Type} [DecidableEq ε] [DecidableEq α] : DecidableEq (Except ε α) :=
  fun x y =>
    match x, y with
    | .ok a, .ok b =>
      if h : a = b then isTrue (by rw [h]) else isFalse (fun hh => h (Except.ok.inj hh))
    | .ok _, .error _ => isFalse (fun hh => Except.noConfusion hh)
    | .error _, .ok _ => isFalse (fun hh => Except.noConfusion hh)
    | .error a, .error b =>
      if h : a = b then isTrue (by rw [h]) else isFalse (fun hh => h (Except.error.inj hh))

/-- Result of one of the non-build handlers: the HTTP response
(`.error msg` for a 400, `.ok buildId` otherwise), the final
`project.target`, the `builds.set` calls performed (always none), and the
broadcast log events. -/
structure SimpleOpResult where
  response : Except String String
  projectTarget : Option String
  ledgerWrites : List BuildRecord
  logs : List LogEvent
deriving DecidableEq

/-- Handler for `POST /api/project/:projectId/set-target` (lines 227-251) for a known
project: validate the target against `validTargets` (400 on failure, no
unit synthesized), respond with a fresh build id, run
`idf.py set-target`, and set `project.target` only on a clean exit. -/
def setTargetHandler (project : Project) (buildId target : String)
    (run : ProcBehavior) : SimpleOpResult :=
  if !(validTargets.contains target) then
    { response := .error ("Target inválido. Use: " ++ String.intercalate ", " validTargets),
      projectTarget := project.target, ledgerWrites := [], logs := [] }
  else
    let cmd := "idf.py set-target " ++ target
    let rLogs := runIdfCommandLogs cmd buildId run
    match runIdfCommandResult run with
    | .ok _ =>
      { response := .ok buildId, projectTarget := some target, ledgerWrites := [],
        logs := rLogs ++ [⟨buildId, "✅ Target definido: " ++ target, "success"⟩] }
    | .error e =>
      { response := .ok buildId, projectTarget := project.target, ledgerWrites := [],
        logs := rLogs ++ [⟨buildId, "❌ Erro: " ++ e.message, "error"⟩] }

/-- Handler for `POST /api/project/:projectId/fullclean` (lines 368-384): run
`idf.py fullclean` and reset `project.target` to `null` on a clean exit. -/
def fullcleanHandler (project : Project) (buildId : String)
    (run : ProcBehavior) : SimpleOpResult :=
  let rLogs := runIdfCommandLogs "idf.py fullclean" buildId run
  match runIdfCommandResult run with
  | .ok _ =>
    { response := .ok buildId, projectTarget := none, ledgerWrites := [],
      logs := rLogs ++ [⟨buildId, "✅ Projeto limpo com sucesso!", "success"⟩] }
  | .error e =>
    { response := .ok buildId, projectTarget := project.target, ledgerWrites := [],
      logs := rLogs ++ [⟨buildId, "❌ Erro: " ++ e.message, "error"⟩] }

/-- The common shape of the `size` (387-402), `size-components` (405-420),
`size-files` (423-438), `reconfigure` (711-726) and `list-components`
(729-744) handlers: run one fixed command, broadcast `okMsg` on success
or the error message on failure, and never touch `project.target` or the
`builds` map. -/
def simpleCommandHandler (project : Project) (buildId cmd okMsg : String)
    (run : ProcBehavior) : SimpleOpResult :=
  let rLogs := runIdfCommandLogs cmd buildId run
  match runIdfCommandResult run with
  | .ok _ =>
    { response := .ok buildId, projectTarget := project.target, ledgerWrites := [],
      logs := rLogs ++ [⟨buildId, okMsg, "success"⟩] }
  | .error e =>
    { response := .ok buildId, projectTarget := project.target, ledgerWrites := [],
      logs := rLogs ++ [⟨buildId, "❌ Erro: " ++ e.message, "error"⟩] }

def sizeHandler (project : Project) (buildId : String) (run : ProcBehavior) : SimpleOpResult :=
  simpleCommandHandler project buildId "idf.py size" "✅ Análise de tamanho concluída!" run

def reconfigureHandler (project : Project) (buildId : String) (run : ProcBehavior) : SimpleOpResult :=
  simpleCommandHandler project buildId "idf.py reconfigure" "✅ CMake reconfigurado!" run

/-- Does any string field of a stored build record contain `s` as a
substring?  Used to ask whether a piece of process output is retrievable
from the record. -/
def recordMentions (r : BuildRecord) (s : String) : Bool :=
  strContains r.projectId s || strContains r.status s || strContains r.target s
    || (match r.error with | some e => strContains e s | none => false)
    || (match r.manifestUrl with | some m => strContains m s | none => false)
    || ((r.binaries.getD []).any (fun p => strContains p.1 s || strContains p.2 s))

/-! ## Concurrency model of operation submission (server.js lines 254-281)

Every operation handler, for a known project, proceeds straight from
accepting the HTTP request to spawning its external command: between the
`projects.get` lookup and the `spawn` inside `runIdfCommand` no handler
consults or acquires any per-project lock, queue or busy flag — no such
structure exists in the source.  Each spawned child process then runs
concurrently with the single-threaded event loop and with every other
child process.  The transition system below captures exactly that: an
`accept` step (a request for any project is accepted and its external
command enters its execution phase immediately, with no precondition on
the other in-flight operations) and a `finish` step (some in-flight
command terminates). -/

inductive OpPhase where
  | executing
  | done
deriving DecidableEq

def isExecuting : OpPhase → Bool
  | .executing => true
  | .done => false

/-- One submitted operation: the project it targets and whether its
external command is still running. -/
structure OpRec where
  pid : String
  phase : OpPhase
deriving DecidableEq

/-- The in-flight operations of the server process, in submission order. -/
structure Srv where
  ops : List OpRec
deriving DecidableEq

/-- One scheduler step of the server. -/
inductive SrvStep : Srv → Srv → Prop where
  | accept (s : Srv) (pid : String) :
      SrvStep s ⟨s.ops ++ [⟨pid, OpPhase.executing⟩]⟩
  | finish (s : Srv) (i : Nat) (h : i < s.ops.length) :
      SrvStep s ⟨s.ops.set i ⟨(s.ops.get ⟨i, h⟩).pid, OpPhase.done⟩⟩

/-- States reachable from the freshly started server (no operations). -/
inductive SrvReach : Srv → Prop where
  | init : SrvReach ⟨[]⟩
  | step {s t : Srv} : SrvReach s → SrvStep s t → SrvReach t

/-- Number of operations against project `pid` whose external-command
execution phase is currently open. -/
def executingCount (s : Srv) (pid : String) : Nat :=
  (s.ops.filter (fun o => o.pid == pid && isExecuting o.phase)).length

/-! ## Shared helper lemmas -/

theorem lookup_overwrite (id : String) (r : BuildRecord) :
    ∀ l : List (String × BuildRecord), (l.any fun p => p.1 == id) = true →
      assocGet (l.map (fun p => if p.1 == id then (id, r) else p)) id = some r
  | [], h => by simp at h
  | p :: rest, h => by
      by_cases hp : p.1 = id
      · have hb : (p.1 == id) = true := beq_iff_eq.mpr hp
        rw [List.map_cons, if_pos hb]
        simp [assocGet]
      · have hb : (p.1 == id) = false := beq_eq_false_iff_ne.mpr hp
        have hrest : (rest.any fun p => p.1 == id) = true := by
          simpa [List.any_cons, hb] using h
        rw [List.map_cons, if_neg (by simp [hb])]
        rw [assocGet, if_neg (by simp [hb])]
        exact lookup_overwrite id r rest hrest

theorem lookup_append_new (id : String) (r : BuildRecord) :
    ∀ l : List (String × BuildRecord), ¬ (l.any fun p => p.1 == id) = true →
      assocGet (l ++ [(id, r)]) id = some r
  | [], _ => by simp [assocGet]
  | p :: rest, h => by
      have h1 : (p.1 == id) = false := by
        cases hb : (p.1 == id) with
        | false => rfl
        | true => exact absurd (by simp [List.any_cons, hb]) h
      have h2 : ¬ (rest.any fun p => p.1 == id) = true := by
        intro hh
        exact h (by simp [List.any_cons, hh])
      rw [List.cons_append, assocGet, if_neg (by simp [h1])]
      exact lookup_append_new id r rest h2

theorem buildsGet_set (ledger : List (String × BuildRecord)) (id : String) (r : BuildRecord) :
    buildsGet (buildsSet ledger id r) id = some r := by
  unfold buildsGet buildsSet
  by_cases h : (ledger.any fun p => p.1 == id) = true
  · simp only [h, if_true]
    exact lookup_overwrite id r ledger h
  · simp only [h, if_false]
    exact lookup_append_new id r ledger h

theorem runIdfCommandLogs_buildId (cmd bid : String) (pb : ProcBehavior) :
    ∀ e ∈ runIdfCommandLogs cmd bid pb, e.buildId = bid := by
  intro e he
  simp only [runIdfCommandLogs, List.mem_cons, List.mem_map] at he
  rcases he with rfl | ⟨c, _, rfl⟩ <;> rfl

/-- Structural fact about every run of the build handler: its ledger
writes are exactly the initial `building` record followed by one terminal
record, which is also the final record. -/
theorem buildHandler_ledgerWrites (project : Project) (bid : String) (rt : Option String)
    (env : BuildEnv) :
    (buildHandler project bid rt env).ledgerWrites
      = [⟨project.id, "building", chooseTarget rt project.target, env.t0, none, none, none, none⟩,
         (buildHandler project bid rt env).record]
    ∧ ((buildHandler project bid rt env).record.status = "success"
        ∨ (buildHandler project bid rt env).record.status = "failed") := by
  by_cases h : needSetTarget project.target (chooseTarget rt project.target) = true
  · rcases hst : runIdfCommandResult env.setTargetRun with er | out
    · simp [buildHandler, h, hst, failRecord]
    · rcases hb : runIdfCommandResult env.buildRun with er | out2
      · simp [buildHandler, buildPhase, h, hst, hb, failRecord]
      · simp [buildHandler, buildPhase, h, hst, hb]
  · rcases hb : runIdfCommandResult env.buildRun with er | out2
    · simp [buildHandler, buildPhase, h, hb, failRecord]
    · simp [buildHandler, buildPhase, h, hb]

/-- Every log event the build handler broadcasts carries its build id. -/
theorem buildHandler_logs_buildId (project : Project) (bid : String) (rt : Option String)
    (env : BuildEnv) :
    ∀ e ∈ (buildHandler project bid rt env).logs, e.buildId = bid := by
  have hrun : ∀ (cmd : String) (pb : ProcBehavior), ∀ e ∈ runIdfCommandLogs cmd bid pb,
      LogEvent.buildId e = bid := fun cmd pb => runIdfCommandLogs_buildId cmd bid pb
  have hone : ∀ (m t : String), ∀ e ∈ [(⟨bid, m, t⟩ : LogEvent)], LogEvent.buildId e = bid := by
    intro m t e he
    rw [List.mem_singleton.mp he]
  by_cases h : needSetTarget project.target (chooseTarget rt project.target) = true
  · rcases hst : runIdfCommandResult env.setTargetRun with er | out
    · simp only [buildHandler, h, if_true, hst]
      exact List.forall_mem_append.mpr ⟨hrun _ _, hone _ _⟩
    · rcases hb : runIdfCommandResult env.buildRun with er | out2 <;>
      · simp only [buildHandler, buildPhase, h, if_true, hst, hb]
        exact List.forall_mem_append.mpr
          ⟨List.forall_mem_append.mpr ⟨hrun _ _, hrun _ _⟩, hone _ _⟩
  · rcases hb : runIdfCommandResult env.buildRun with er | out2 <;>
    · simp only [buildHandler, buildPhase, h, if_false, eq_false_of_ne_true h, hb,
        List.nil_append]
      exact List.forall_mem_append.mpr ⟨hrun _ _, hone _ _⟩

/-! ## Claims -/

/-- C1, counterexample: the claim says operations against the same
project are serialized by an exclusive per-project lock so that their
external-command execution phases never overlap.  The server has no such
lock: from the empty server state, two accepted requests against project
`"p1"` lead to a reachable state in which both operations are
simultaneously in their execution phase. -/
theorem c1_counterexample :
    SrvReach ⟨[⟨"p1", OpPhase.executing⟩, ⟨"p1", OpPhase.executing⟩]⟩
    ∧ executingCount ⟨[⟨"p1", OpPhase.executing⟩, ⟨"p1", OpPhase.executing⟩]⟩ "p1" = 2 := by
  constructor
  · exact SrvReach.step (SrvReach.step SrvReach.init (SrvStep.accept ⟨[]⟩ "p1"))
      (SrvStep.accept ⟨[⟨"p1", OpPhase.executing⟩]⟩ "p1")
  · decide

/-- C1, amended: operations against the same project are NOT serialized.
The Orchestrator holds no per-project lock: in every reachable server
state a new request against any project — busy or not — is accepted and
its external command enters its execution phase immediately, and for
every project a state with two operations concurrently in their
execution phase is reachable. -/
theorem c1_amended (s : Srv) (pid : String) (h : SrvReach s) :
    SrvStep s ⟨s.ops ++ [⟨pid, OpPhase.executing⟩]⟩
    ∧ SrvReach ⟨s.ops ++ [⟨pid, OpPhase.executing⟩]⟩
    ∧ SrvReach ⟨[⟨pid, OpPhase.executing⟩, ⟨pid, OpPhase.executing⟩]⟩ := by
  refine ⟨SrvStep.accept s pid, SrvReach.step h (SrvStep.accept s pid), ?_⟩
  exact SrvReach.step (SrvReach.step SrvReach.init (SrvStep.accept ⟨[]⟩ pid))
    (SrvStep.accept ⟨[⟨pid, OpPhase.executing⟩]⟩ pid)

theorem c1_amended_witness :
    SrvStep ⟨[]⟩ ⟨[⟨"p9", OpPhase.executing⟩]⟩
    ∧ SrvReach ⟨[⟨"p9", OpPhase.executing⟩]⟩
    ∧ SrvReach ⟨[⟨"p9", OpPhase.executing⟩, ⟨"p9", OpPhase.executing⟩]⟩ :=
  c1_amended ⟨[]⟩ "p9" SrvReach.init

/-- C2, counterexample: the claim says every unit is stored with initial
status `running`.  The build handler stores its unit with initial status
`building` (server.js line 265), which is not `running`. -/
theorem c2_counterexample :
    ((buildHandler ⟨"p1", "proj", none⟩ "b1" (some "esp32")
        ⟨⟨[], .closed 0⟩, ⟨[], .closed 0⟩, ⟨[], false, false, none⟩, 0, 1⟩).ledgerWrites.head?.map
          (fun r => r.status)) = some "building"
    ∧ some "building" ≠ some "running" := by
  decide

/-- C2, amended: every unit the build handler stores in the Ledger starts
in status `building`, every record it ever writes has status `building`,
`success` or `failed`, and a status query for an id the handler wrote
returns a record whose status is one of those three. -/
theorem c2_amended (project : Project) (bid : String) (rt : Option String) (env : BuildEnv)
    (ledger : List (String × BuildRecord)) :
    ((buildHandler project bid rt env).ledgerWrites.head?.map (fun r => r.status))
        = some "building"
    ∧ (∀ w ∈ (buildHandler project bid rt env).ledgerWrites,
        w.status = "building" ∨ w.status = "success" ∨ w.status = "failed")
    ∧ (∀ rec, getBuildEndpoint
          (applyWrites ledger bid (buildHandler project bid rt env).ledgerWrites) bid
          = Except.ok rec →
        rec.status = "building" ∨ rec.status = "success" ∨ rec.status = "failed") := by
  obtain ⟨hw, hterm⟩ := buildHandler_ledgerWrites project bid rt env
  refine ⟨by rw [hw]; rfl, ?_, ?_⟩
  · rw [hw]
    intro w hmem
    rcases List.mem_cons.mp hmem with rfl | hmem2
    · exact Or.inl rfl
    · rcases List.mem_cons.mp hmem2 with rfl | hmem3
      · rcases hterm with h | h
        · exact Or.inr (Or.inl h)
        · exact Or.inr (Or.inr h)
      · exact absurd hmem3 (List.not_mem_nil w)
  · intro rec hget
    rw [hw] at hget
    have e1 : applyWrites ledger bid
        [⟨project.id, "building", chooseTarget rt project.target, env.t0, none, none, none, none⟩,
         (buildHandler project bid rt env).record]
        = buildsSet (buildsSet ledger bid
            ⟨project.id, "building", chooseTarget rt project.target, env.t0, none, none, none, none⟩)
            bid (buildHandler project bid rt env).record := rfl
    rw [e1] at hget
    unfold getBuildEndpoint at hget
    rw [buildsGet_set] at hget
    have hrec := Except.ok.inj hget
    rw [← hrec]
    rcases hterm with h | h
    · exact Or.inr (Or.inl h)
    · exact Or.inr (Or.inr h)

theorem c2_amended_witness :
    ((buildHandler ⟨"p1", "proj", none⟩ "b1" (some "esp32")
        ⟨⟨[], .closed 0⟩, ⟨[], .closed 0⟩, ⟨[], false, false, none⟩, 0, 1⟩).ledgerWrites.head?.map
          (fun r => r.status)) = some "building"
    ∧ ((buildHandler ⟨"p1", "proj", none⟩ "b1" (some "esp32")
        ⟨⟨[], .closed 0⟩, ⟨[], .closed 0⟩, ⟨[], false, false, none⟩, 0, 1⟩).record.status = "building"
      ∨ (buildHandler ⟨"p1", "proj", none⟩ "b1" (some "esp32")
        ⟨⟨[], .closed 0⟩, ⟨[], .closed 0⟩, ⟨[], false, false, none⟩, 0, 1⟩).record.status = "success"
      ∨ (buildHandler ⟨"p1", "proj", none⟩ "b1" (some "esp32")
        ⟨⟨[], .closed 0⟩, ⟨[], .closed 0⟩, ⟨[], false, false, none⟩, 0, 1⟩).record.status = "failed") := by
  have h := c2_amended ⟨"p1", "proj", none⟩ "b1" (some "esp32")
    ⟨⟨[], .closed 0⟩, ⟨[], .closed 0⟩, ⟨[], false, false, none⟩, 0, 1⟩ []
  refine ⟨h.1, ?_⟩
  exact h.2.2 _ (by decide)

/-- When both sub-commands exit cleanly, the build handler writes the
manifest computed from the build directory. -/
theorem buildHandler_manifest_success (project : Project) (bid : String) (rt : Option String)
    (env : BuildEnv) (hst : ∃ o, runIdfCommandResult env.setTargetRun = Except.ok o)
    (hb : ∃ o, runIdfCommandResult env.buildRun = Except.ok o) :
    (buildHandler project bid rt env).manifest
      = some (mkFlashManifest project.name (chooseTarget rt project.target)
          (env.fsv.flashArgs.getD []) (binariesNames env.fsv)) := by
  obtain ⟨o1, h1⟩ := hst
  obtain ⟨o2, h2⟩ := hb
  by_cases h : needSetTarget project.target (chooseTarget rt project.target) = true
  · simp [buildHandler, buildPhase, h, h1, h2]
  · simp [buildHandler, buildPhase, h, h2]

/-- The final ledger record of the build handler always carries the
effective target chosen at line 261. -/
theorem buildHandler_record_target (project : Project) (bid : String) (rt : Option String)
    (env : BuildEnv) :
    (buildHandler project bid rt env).record.target = chooseTarget rt project.target := by
  by_cases h : needSetTarget project.target (chooseTarget rt project.target) = true
  · rcases hst : runIdfCommandResult env.setTargetRun with er | out
    · simp [buildHandler, h, hst, failRecord]
    · rcases hb : runIdfCommandResult env.buildRun with er | out2 <;>
        simp [buildHandler, buildPhase, h, hst, hb, failRecord]
  · rcases hb : runIdfCommandResult env.buildRun with er | out2 <;>
      simp [buildHandler, buildPhase, h, hb, failRecord]

/-- C3, counterexample: the claim says every public operation registers
its unit with the Ledger so that a status query does not return
not-found.  A set-target request against a known project with a valid
target returns build id `"b1"` but performs no ledger write, and the
status query for `"b1"` returns the 404 error. -/
theorem c3_counterexample :
    (setTargetHandler ⟨"p1", "proj", none⟩ "b1" "esp32" ⟨[], .closed 0⟩).response
        = Except.ok "b1"
    ∧ (setTargetHandler ⟨"p1", "proj", none⟩ "b1" "esp32" ⟨[], .closed 0⟩).ledgerWrites = []
    ∧ getBuildEndpoint [] "b1" = Except.error "Build não encontrado" := by
  decide

/-- C3, amended: only the build operation registers its unit with the
Ledger (initial status `building`, so its status query succeeds); the
set-target, fullclean, size-report and reconfigure handlers synthesize
and return an identifier without any ledger write, and a status query
with a fresh identifier returns not-found. -/
theorem c3_amended (project : Project) (bid target cmd okMsg : String) (run : ProcBehavior)
    (rt : Option String) (env : BuildEnv) (ledger : List (String × BuildRecord))
    (hfresh : buildsGet ledger bid = none) :
    (setTargetHandler project bid target run).ledgerWrites = []
    ∧ (fullcleanHandler project bid run).ledgerWrites = []
    ∧ (simpleCommandHandler project bid cmd okMsg run).ledgerWrites = []
    ∧ getBuildEndpoint ledger bid = Except.error "Build não encontrado"
    ∧ ((buildHandler project bid rt env).ledgerWrites.head?.map (fun r => r.status))
        = some "building"
    ∧ (∃ rec, getBuildEndpoint
          (applyWrites ledger bid (buildHandler project bid rt env).ledgerWrites) bid
          = Except.ok rec) := by
  obtain ⟨hw, _⟩ := buildHandler_ledgerWrites project bid rt env
  refine ⟨?_, ?_, ?_, ?_, by rw [hw]; rfl, ?_⟩
  · unfold setTargetHandler
    split
    · rfl
    · split <;> rfl
  · unfold fullcleanHandler
    split <;> rfl
  · unfold simpleCommandHandler
    split <;> rfl
  · unfold getBuildEndpoint
    rw [hfresh]
  · refine ⟨(buildHandler project bid rt env).record, ?_⟩
    rw [hw]
    have e1 : applyWrites ledger bid
        [⟨project.id, "building", chooseTarget rt project.target, env.t0, none, none, none, none⟩,
         (buildHandler project bid rt env).record]
        = buildsSet (buildsSet ledger bid
            ⟨project.id, "building", chooseTarget rt project.target, env.t0, none, none, none, none⟩)
            bid (buildHandler project bid rt env).record := rfl
    rw [e1]
    unfold getBuildEndpoint
    rw [buildsGet_set]

theorem c3_amended_witness :
    (setTargetHandler ⟨"p1", "proj", none⟩ "b1" "esp32s3" ⟨[], .closed 0⟩).ledgerWrites = []
    ∧ (fullcleanHandler ⟨"p1", "proj", none⟩ "b1" ⟨[], .closed 0⟩).ledgerWrites = []
    ∧ (simpleCommandHandler ⟨"p1", "proj", none⟩ "b1" "idf.py size"
        "✅ Análise de tamanho concluída!" ⟨[], .closed 0⟩).ledgerWrites = []
    ∧ getBuildEndpoint [] "b1" = Except.error "Build não encontrado"
    ∧ ((buildHandler ⟨"p1", "proj", none⟩ "b1" (some "esp32")
        ⟨⟨[], .closed 0⟩, ⟨[], .closed 0⟩, ⟨[], false, false, none⟩, 0, 1⟩).ledgerWrites.head?.map
          (fun r => r.status)) = some "building"
    ∧ (∃ rec, getBuildEndpoint
        (applyWrites [] "b1" (buildHandler ⟨"p1", "proj", none⟩ "b1" (some "esp32")
          ⟨⟨[], .closed 0⟩, ⟨[], .closed 0⟩, ⟨[], false, false, none⟩, 0, 1⟩).ledgerWrites) "b1"
        = Except.ok rec) :=
  c3_amended ⟨"p1", "proj", none⟩ "b1" "esp32s3" "idf.py size"
    "✅ Análise de tamanho concluída!" ⟨[], .closed 0⟩ (some "esp32")
    ⟨⟨[], .closed 0⟩, ⟨[], .closed 0⟩, ⟨[], false, false, none⟩, 0, 1⟩ [] (by decide)

/-- C4, counterexample: the claim says a toolchain-emitted offset
manifest takes priority over the fixed offset table when present.  For a
build directory containing the top-level binary `partition-table.bin`
and a `flash_args` manifest assigning it offset `0x9000`, the resolved
manifest assigns the fixed `0x8000` instead: the lookup key is the name
with its first `-` replaced by `/` (`partition/table.bin`), which misses
the manifest entry keyed by the basename of the file. -/
theorem c4_counterexample :
    ((buildHandler ⟨"p1", "proj", some "esp32"⟩ "b1" (some "esp32")
        ⟨⟨[], .closed 0⟩, ⟨[], .closed 0⟩,
          ⟨["partition-table.bin"], false, false, some [("partition-table.bin", "0x9000")]⟩,
          0, 1⟩).manifest.map (fun m => m.parts))
      = some [⟨"partition-table.bin", 0x8000⟩] := by
  decide

/-- C4, amended: with no offset manifest, a build directory holding
exactly `bootloader.bin`, `partition-table.bin` and `app.bin` resolves to
offsets `0x1000`, `0x8000` and `0x10000`; and a `flash_args` entry takes
priority over the fixed table exactly for names whose first `-` replaced
by `/` matches a manifest key (in particular for dash-free names). -/
theorem c4_amended (project : Project) (bid : String) (fa : List (String × String))
    (name o : String) (hlook : fa.lookup (dashToSlash name) = some o) :
    ((buildHandler project bid (some "esp32")
        ⟨⟨[], .closed 0⟩, ⟨[], .closed 0⟩,
          ⟨["bootloader.bin", "partition-table.bin", "app.bin"], false, false, none⟩,
          0, 1⟩).manifest.map (fun m => m.parts))
      = some [⟨"bootloader.bin", 0x1000⟩, ⟨"partition-table.bin", 0x8000⟩,
              ⟨"app.bin", 0x10000⟩]
    ∧ resolveOffsetStr fa name = some o := by
  constructor
  · have h := buildHandler_manifest_success project bid (some "esp32")
      ⟨⟨[], .closed 0⟩, ⟨[], .closed 0⟩,
        ⟨["bootloader.bin", "partition-table.bin", "app.bin"], false, false, none⟩, 0, 1⟩
      ⟨"", by decide⟩ ⟨"", by decide⟩
    rw [h]
    show some (manifestParts []
        (binariesNames ⟨["bootloader.bin", "partition-table.bin", "app.bin"],
          false, false, none⟩))
      = _
    decide
  · simp [resolveOffsetStr, hlook]

theorem c4_amended_witness :
    ((buildHandler ⟨"p1", "proj", none⟩ "b1" (some "esp32")
        ⟨⟨[], .closed 0⟩, ⟨[], .closed 0⟩,
          ⟨["bootloader.bin", "partition-table.bin", "app.bin"], false, false, none⟩,
          0, 1⟩).manifest.map (fun m => m.parts))
      = some [⟨"bootloader.bin", 0x1000⟩, ⟨"partition-table.bin", 0x8000⟩,
              ⟨"app.bin", 0x10000⟩]
    ∧ resolveOffsetStr [("app.bin", "0x20000")] "app.bin" = some "0x20000" :=
  c4_amended ⟨"p1", "proj", none⟩ "b1" [("app.bin", "0x20000")] "app.bin" "0x20000" (by decide)

/-- C5, counterexample: the claim says an attempted update of a unit in
terminal state is rejected or ignored, never silently overwritten.  The
update primitive of the ledger is `Map.set`, which silently overwrites: a
record in terminal status `success` updated with a `failed` record
becomes `failed`. -/
theorem c5_counterexample :
    buildsGet (buildsSet [("b1", ⟨"p1", "success", "esp32", 0, some [], some "m", none, some 1⟩)]
        "b1" ⟨"p1", "failed", "esp32", 0, none, none, some "boom", some 2⟩) "b1"
      = some ⟨"p1", "failed", "esp32", 0, none, none, some "boom", some 2⟩ := by
  decide

/-- C5, amended: the ledger applies every update unconditionally (no
reject/ignore guard exists), but the status of a unit is nevertheless monotone
in every execution of the build handler, because the handler writes its
unit exactly twice — the initial `building` record and then exactly one
terminal record — so no write ever follows a terminal state. -/
theorem c5_amended (project : Project) (bid : String) (rt : Option String) (env : BuildEnv) :
    ((buildHandler project bid rt env).ledgerWrites.map (fun r => r.status))
        = ["building", "success"]
    ∨ ((buildHandler project bid rt env).ledgerWrites.map (fun r => r.status))
        = ["building", "failed"] := by
  obtain ⟨hw, hterm⟩ := buildHandler_ledgerWrites project bid rt env
  rw [hw]
  rcases hterm with h | h
  · exact Or.inl (by simp [h])
  · exact Or.inr (by simp [h])

/-- C6: in the build handler, whenever the recorded target is unset or
differs from the effective requested target (the code condition
`needSetTarget`), the set-target sub-command runs first; if it fails the
unit ends `failed` with no build sub-command and no artifact step; if it
succeeds the build sub-command follows; and when the recorded target
already equals the (non-empty) requested target, no set-target
sub-command runs.  The last two conjuncts bridge the wording of the claim to
the code condition: an unset recorded target forces `needSetTarget`, and
a recorded target equal to the requested one falsifies it. -/
theorem c6_target_policy (project : Project) (bid : String) (rt : Option String)
    (env : BuildEnv) :
    (needSetTarget project.target (chooseTarget rt project.target) = true →
      (buildHandler project bid rt env).commands.head?
        = some ("idf.py set-target " ++ chooseTarget rt project.target))
    ∧ (needSetTarget project.target (chooseTarget rt project.target) = true →
        ∀ er, runIdfCommandResult env.setTargetRun = Except.error er →
          (buildHandler project bid rt env).record.status = "failed"
          ∧ (buildHandler project bid rt env).commands
              = ["idf.py set-target " ++ chooseTarget rt project.target]
          ∧ (buildHandler project bid rt env).manifest = none)
    ∧ (needSetTarget project.target (chooseTarget rt project.target) = true →
        ∀ out, runIdfCommandResult env.setTargetRun = Except.ok out →
          (buildHandler project bid rt env).commands
            = ["idf.py set-target " ++ chooseTarget rt project.target, "idf.py build"])
    ∧ (needSetTarget project.target (chooseTarget rt project.target) = false →
        (buildHandler project bid rt env).commands = ["idf.py build"])
    ∧ (project.target = none →
        needSetTarget project.target (chooseTarget rt project.target) = true)
    ∧ (∀ t, project.target = some t → t ≠ "" → rt = some t →
        needSetTarget project.target (chooseTarget rt project.target) = false) := by
  refine ⟨?_, ?_, ?_, ?_, ?_, ?_⟩
  · intro h
    rcases hst : runIdfCommandResult env.setTargetRun with er | out
    · simp [buildHandler, h, hst]
    · rcases hb : runIdfCommandResult env.buildRun with er | out2 <;>
        simp [buildHandler, buildPhase, h, hst, hb]
  · intro h er hst
    simp [buildHandler, h, hst, failRecord]
  · intro h out hst
    rcases hb : runIdfCommandResult env.buildRun with er | out2 <;>
      simp [buildHandler, buildPhase, h, hst, hb]
  · intro h
    rcases hb : runIdfCommandResult env.buildRun with er | out2 <;>
      simp [buildHandler, buildPhase, h, hb]
  · intro h
    rw [h]
    rfl
  · intro t hp hne hrt
    have hbeq : (t == "") = false := beq_eq_false_iff_ne.mpr hne
    rw [hp, hrt]
    simp [chooseTarget, jsOrS, needSetTarget, hbeq]

theorem c6_target_policy_witness :
    (buildHandler ⟨"p1", "proj", none⟩ "b1" (some "esp32s3")
        ⟨⟨[], .closed 2⟩, ⟨[], .closed 0⟩, ⟨[], false, false, none⟩, 0, 1⟩).record.status
        = "failed"
    ∧ (buildHandler ⟨"p1", "proj", none⟩ "b1" (some "esp32s3")
        ⟨⟨[], .closed 2⟩, ⟨[], .closed 0⟩, ⟨[], false, false, none⟩, 0, 1⟩).commands
        = ["idf.py set-target " ++ chooseTarget (some "esp32s3") (none : Option String)]
    ∧ (buildHandler ⟨"p1", "proj", none⟩ "b1" (some "esp32s3")
        ⟨⟨[], .closed 2⟩, ⟨[], .closed 0⟩, ⟨[], false, false, none⟩, 0, 1⟩).manifest = none
    ∧ (buildHandler ⟨"p1", "proj", some "esp32"⟩ "b2" (some "esp32")
        ⟨⟨[], .closed 0⟩, ⟨[], .closed 0⟩, ⟨[], false, false, none⟩, 0, 1⟩).commands
        = ["idf.py build"] := by
  have h1 := c6_target_policy ⟨"p1", "proj", none⟩ "b1" (some "esp32s3")
    ⟨⟨[], .closed 2⟩, ⟨[], .closed 0⟩, ⟨[], false, false, none⟩, 0, 1⟩
  have h2 := c6_target_policy ⟨"p1", "proj", some "esp32"⟩ "b2" (some "esp32")
    ⟨⟨[], .closed 0⟩, ⟨[], .closed 0⟩, ⟨[], false, false, none⟩, 0, 1⟩
  have hfail := h1.2.1 (by decide) (JsError.commandFailed 2 "") (by decide)
  exact ⟨hfail.1, hfail.2.1, hfail.2.2, h2.2.2.2.1 (by decide)⟩

/-- C7, counterexample: the claim says that after a unit reaches a
terminal state, the accumulated-output view of its ledger record contains
every output chunk.  For a successful build whose command emitted the
chunk `unique-chunk-77`, the chunk was broadcast live, but the final
ledger record retains it in no field: on success the accumulated output
is discarded (the build handler ignores the resolved output, server.js
line 280). -/
theorem c7_counterexample :
    (buildHandler ⟨"p1", "proj", some "esp32"⟩ "b1" (some "esp32")
        ⟨⟨[], .closed 0⟩, ⟨[⟨.stdout, "unique-chunk-77"⟩], .closed 0⟩,
          ⟨["app.bin"], false, false, none⟩, 0, 1⟩).record.status = "success"
    ∧ ((buildHandler ⟨"p1", "proj", some "esp32"⟩ "b1" (some "esp32")
        ⟨⟨[], .closed 0⟩, ⟨[⟨.stdout, "unique-chunk-77"⟩], .closed 0⟩,
          ⟨["app.bin"], false, false, none⟩, 0, 1⟩).logs.any
          (fun e => strContains e.message "unique-chunk-77")) = true
    ∧ recordMentions (buildHandler ⟨"p1", "proj", some "esp32"⟩ "b1" (some "esp32")
        ⟨⟨[], .closed 0⟩, ⟨[⟨.stdout, "unique-chunk-77"⟩], .closed 0⟩,
          ⟨["app.bin"], false, false, none⟩, 0, 1⟩).record "unique-chunk-77" = false := by
  decide

/-- C7, amended: every log event broadcast during the lifetime of a
build unit carries the identifier of that unit; when the unit fails
because the build command exited non-zero, the stored error message embeds the
full accumulated output — every chunk concatenated in emission order;
on success the accumulated output is not retained in the record. -/
theorem c7_amended (project : Project) (bid : String) (rt : Option String) (env : BuildEnv) :
    (∀ e ∈ (buildHandler project bid rt env).logs, e.buildId = bid)
    ∧ (∀ c : Int, ¬ c = 0 → env.buildRun.term = ProcTermination.closed c →
        (needSetTarget project.target (chooseTarget rt project.target) = false
          ∨ (∃ o, runIdfCommandResult env.setTargetRun = Except.ok o)) →
        (buildHandler project bid rt env).record.error
          = some ("Command failed with code " ++ toString c ++ "\n"
              ++ accumOutput env.buildRun.chunks)) := by
  refine ⟨buildHandler_logs_buildId project bid rt env, ?_⟩
  intro c hc hterm hok
  have hbr : runIdfCommandResult env.buildRun
      = Except.error (JsError.commandFailed c (accumOutput env.buildRun.chunks)) := by
    unfold runIdfCommandResult
    rw [hterm]
    simp [beq_eq_false_iff_ne.mpr hc]
  rcases hok with hns | ⟨o, hst⟩
  · simp [buildHandler, buildPhase, hns, hbr, failRecord, JsError.message]
  · by_cases h : needSetTarget project.target (chooseTarget rt project.target) = true
    · simp [buildHandler, buildPhase, h, hst, hbr, failRecord, JsError.message]
    · simp [buildHandler, buildPhase, h, hbr, failRecord, JsError.message]

theorem c7_amended_witness :
    (∀ e ∈ (buildHandler ⟨"p1", "proj", some "esp32"⟩ "b1" (some "esp32")
        ⟨⟨[], .closed 0⟩, ⟨[⟨.stdout, "aa"⟩, ⟨.stderr, "bb"⟩], .closed 3⟩,
          ⟨[], false, false, none⟩, 0, 1⟩).logs, e.buildId = "b1")
    ∧ (buildHandler ⟨"p1", "proj", some "esp32"⟩ "b1" (some "esp32")
        ⟨⟨[], .closed 0⟩, ⟨[⟨.stdout, "aa"⟩, ⟨.stderr, "bb"⟩], .closed 3⟩,
          ⟨[], false, false, none⟩, 0, 1⟩).record.error
        = some ("Command failed with code " ++ toString (3 : Int) ++ "\n"
            ++ accumOutput [⟨.stdout, "aa"⟩, ⟨.stderr, "bb"⟩]) := by
  have h := c7_amended ⟨"p1", "proj", some "esp32"⟩ "b1" (some "esp32")
    ⟨⟨[], .closed 0⟩, ⟨[⟨.stdout, "aa"⟩, ⟨.stderr, "bb"⟩], .closed 3⟩,
      ⟨[], false, false, none⟩, 0, 1⟩
  exact ⟨h.1, h.2 3 (by decide) (by decide) (Or.inl (by decide))⟩

/-- C8: the Process Runner resolves with success exactly when the
external command closes with exit code 0; a non-zero close rejects with
the synthesized error whose message combines the exit code and the
captured output (the accumulated output, whose last portion it therefore
carries); a launch failure rejects with the spawn error itself — a
structurally distinct rejection value, never equal to an exit-code
rejection; and the build unit then transitions to `failed` carrying that
combined message. -/
theorem c8_runner_semantics (chunks : List Chunk) (msg : String) (c : Int) (hc : ¬ c = 0)
    (project : Project) (bid t : String) (ht : project.target = some t) (hne : t ≠ "")
    (env : BuildEnv) (hb : env.buildRun = ⟨chunks, ProcTermination.closed c⟩) :
    (∀ code : Int, ∀ cs : List Chunk,
        (∃ out, runIdfCommandResult ⟨cs, ProcTermination.closed code⟩ = Except.ok out)
          ↔ code = 0)
    ∧ runIdfCommandResult ⟨chunks, ProcTermination.closed c⟩
        = Except.error (JsError.commandFailed c (accumOutput chunks))
    ∧ runIdfCommandResult ⟨chunks, ProcTermination.spawnError msg⟩
        = Except.error (JsError.spawnFailure msg)
    ∧ (∀ c2 out, JsError.spawnFailure msg ≠ JsError.commandFailed c2 out)
    ∧ (buildHandler project bid (some t) env).record.status = "failed"
    ∧ (buildHandler project bid (some t) env).record.error
        = some ("Command failed with code " ++ toString c ++ "\n" ++ accumOutput chunks) := by
  have hbeq : (t == "") = false := beq_eq_false_iff_ne.mpr hne
  have hct : chooseTarget (some t) project.target = t := by
    simp [chooseTarget, jsOrS, hbeq]
  have hns : needSetTarget project.target (chooseTarget (some t) project.target) = false := by
    rw [hct, ht]
    simp [needSetTarget, hbeq]
  have hbr : runIdfCommandResult env.buildRun
      = Except.error (JsError.commandFailed c (accumOutput chunks)) := by
    rw [hb]
    simp [runIdfCommandResult, accumOutput, beq_eq_false_iff_ne.mpr hc]
  refine ⟨?_, ?_, by rfl, ?_, ?_, ?_⟩
  · intro code cs
    constructor
    · rintro ⟨out, hout⟩
      by_contra hcode
      simp [runIdfCommandResult, beq_eq_false_iff_ne.mpr hcode] at hout
    · rintro rfl
      exact ⟨accumOutput cs, by simp [runIdfCommandResult]⟩
  · simp [runIdfCommandResult, beq_eq_false_iff_ne.mpr hc]
  · intro c2 out h
    exact JsError.noConfusion h
  · simp [buildHandler, buildPhase, hns, hbr, failRecord]
  · simp [buildHandler, buildPhase, hns, hbr, failRecord, JsError.message]

theorem c8_runner_semantics_witness :
    ((∃ out, runIdfCommandResult ⟨[⟨.stdout, "x"⟩], ProcTermination.closed 0⟩ = Except.ok out)
        ↔ (0 : Int) = 0)
    ∧ runIdfCommandResult ⟨[⟨.stdout, "x"⟩], ProcTermination.closed 5⟩
        = Except.error (JsError.commandFailed 5 (accumOutput [⟨.stdout, "x"⟩]))
    ∧ runIdfCommandResult ⟨[⟨.stdout, "x"⟩], ProcTermination.spawnError "spawn bash ENOENT"⟩
        = Except.error (JsError.spawnFailure "spawn bash ENOENT")
    ∧ JsError.spawnFailure "spawn bash ENOENT" ≠ JsError.commandFailed 5 "x"
    ∧ (buildHandler ⟨"p1", "proj", some "esp32"⟩ "b1" (some "esp32")
        ⟨⟨[], .closed 0⟩, ⟨[⟨.stdout, "x"⟩], .closed 5⟩,
          ⟨[], false, false, none⟩, 0, 1⟩).record.status = "failed"
    ∧ (buildHandler ⟨"p1", "proj", some "esp32"⟩ "b1" (some "esp32")
        ⟨⟨[], .closed 0⟩, ⟨[⟨.stdout, "x"⟩], .closed 5⟩,
          ⟨[], false, false, none⟩, 0, 1⟩).record.error
        = some ("Command failed with code " ++ toString (5 : Int) ++ "\n"
            ++ accumOutput [⟨.stdout, "x"⟩]) := by
  have h := c8_runner_semantics [⟨.stdout, "x"⟩] "spawn bash ENOENT" 5 (by decide)
    ⟨"p1", "proj", some "esp32"⟩ "b1" "esp32" rfl (by decide)
    ⟨⟨[], .closed 0⟩, ⟨[⟨.stdout, "x"⟩], .closed 5⟩, ⟨[], false, false, none⟩, 0, 1⟩ rfl
  exact ⟨h.1 0 [⟨.stdout, "x"⟩], h.2.1, h.2.2.1, h.2.2.2.1 5 "x", h.2.2.2.2.1, h.2.2.2.2.2⟩

/-- C9, counterexample: the claim says only the target-selection and
clean operations mutate the current target of a project.  A build request
against a project with no recorded target mutates it too: after the
set-target sub-phase of the build handler succeeds, `project.target` is
`esp32s3` (even though the subsequent build sub-command failed), while
the project started with no target. -/
theorem c9_counterexample :
    (buildHandler ⟨"p1", "proj", none⟩ "b1" (some "esp32s3")
        ⟨⟨[], .closed 0⟩, ⟨[], .closed 2⟩, ⟨[], false, false, none⟩, 0, 1⟩).projectTarget
      = some "esp32s3"
    ∧ (⟨"p1", "proj", none⟩ : Project).target ≠ some "esp32s3" := by
  decide

/-- C9, amended: the current target of the project is mutated by exactly
three code paths — the set-target handler (to the validated requested
target, on success only), the fullclean handler (to null, on success
only) and the set-target sub-phase of the build handler (to the effective
target, when that sub-command runs and succeeds).  Failed runs and the
size/reconfigure handlers leave it unchanged. -/
theorem c9_target_mutators (project : Project) (bid target cmd okMsg : String)
    (run : ProcBehavior) (rt : Option String) (env : BuildEnv) :
    (∀ out, runIdfCommandResult run = Except.ok out →
        target ∈ validTargets →
        (setTargetHandler project bid target run).projectTarget = some target)
    ∧ (∀ er, runIdfCommandResult run = Except.error er →
        (setTargetHandler project bid target run).projectTarget = project.target)
    ∧ (target ∉ validTargets →
        (setTargetHandler project bid target run).projectTarget = project.target)
    ∧ (∀ out, runIdfCommandResult run = Except.ok out →
        (fullcleanHandler project bid run).projectTarget = none)
    ∧ (∀ er, runIdfCommandResult run = Except.error er →
        (fullcleanHandler project bid run).projectTarget = project.target)
    ∧ (simpleCommandHandler project bid cmd okMsg run).projectTarget = project.target
    ∧ (needSetTarget project.target (chooseTarget rt project.target) = false →
        (buildHandler project bid rt env).projectTarget = project.target)
    ∧ (∀ er, runIdfCommandResult env.setTargetRun = Except.error er →
        needSetTarget project.target (chooseTarget rt project.target) = true →
        (buildHandler project bid rt env).projectTarget = project.target)
    ∧ (∀ out, runIdfCommandResult env.setTargetRun = Except.ok out →
        needSetTarget project.target (chooseTarget rt project.target) = true →
        (buildHandler project bid rt env).projectTarget
          = some (chooseTarget rt project.target)) := by
  refine ⟨?_, ?_, ?_, ?_, ?_, ?_, ?_, ?_, ?_⟩
  · intro out hr hv
    simp [setTargetHandler, hv, hr]
  · intro er hr
    by_cases hv : target ∈ validTargets
    · simp [setTargetHandler, hv, hr]
    · simp [setTargetHandler, hv]
  · intro hv
    simp [setTargetHandler, hv]
  · intro out hr
    simp [fullcleanHandler, hr]
  · intro er hr
    simp [fullcleanHandler, hr]
  · rcases hr : runIdfCommandResult run with er | out <;>
      simp [simpleCommandHandler, hr]
  · intro h
    rcases hb : runIdfCommandResult env.buildRun with er | out2 <;>
      simp [buildHandler, buildPhase, h, hb]
  · intro er hst h
    simp [buildHandler, h, hst]
  · intro out hst h
    rcases hb : runIdfCommandResult env.buildRun with er | out2 <;>
      simp [buildHandler, buildPhase, h, hst, hb]

theorem c9_target_mutators_witness :
    (setTargetHandler ⟨"p1", "proj", none⟩ "b1" "esp32c3" ⟨[], .closed 0⟩).projectTarget
        = some "esp32c3"
    ∧ (setTargetHandler ⟨"p1", "proj", some "esp32"⟩ "b1" "esp32c3"
        ⟨[], .closed 2⟩).projectTarget = some "esp32"
    ∧ (setTargetHandler ⟨"p1", "proj", some "esp32"⟩ "b1" "badchip"
        ⟨[], .closed 0⟩).projectTarget = some "esp32"
    ∧ (fullcleanHandler ⟨"p1", "proj", some "esp32"⟩ "b1" ⟨[], .closed 0⟩).projectTarget = none
    ∧ (fullcleanHandler ⟨"p1", "proj", some "esp32"⟩ "b1" ⟨[], .closed 2⟩).projectTarget
        = some "esp32"
    ∧ (simpleCommandHandler ⟨"p1", "proj", some "esp32"⟩ "b1" "idf.py reconfigure"
        "✅ CMake reconfigurado!" ⟨[], .closed 0⟩).projectTarget = some "esp32"
    ∧ (buildHandler ⟨"p1", "proj", some "esp32"⟩ "b2" (some "esp32")
        ⟨⟨[], .closed 0⟩, ⟨[], .closed 0⟩, ⟨[], false, false, none⟩, 0, 1⟩).projectTarget
        = some "esp32"
    ∧ (buildHandler ⟨"p1", "proj", none⟩ "b3" (some "esp32")
        ⟨⟨[], .closed 2⟩, ⟨[], .closed 0⟩, ⟨[], false, false, none⟩, 0, 1⟩).projectTarget
        = none
    ∧ (buildHandler ⟨"p1", "proj", none⟩ "b4" (some "esp32")
        ⟨⟨[], .closed 0⟩, ⟨[], .closed 0⟩, ⟨[], false, false, none⟩, 0, 1⟩).projectTarget
        = some (chooseTarget (some "esp32") (none : Option String)) := by
  have h1 := c9_target_mutators ⟨"p1", "proj", none⟩ "b1" "esp32c3" "idf.py reconfigure"
    "✅ CMake reconfigurado!" ⟨[], .closed 0⟩ (some "esp32")
    ⟨⟨[], .closed 0⟩, ⟨[], .closed 0⟩, ⟨[], false, false, none⟩, 0, 1⟩
  have h2 := c9_target_mutators ⟨"p1", "proj", some "esp32"⟩ "b1" "esp32c3" "idf.py reconfigure"
    "✅ CMake reconfigurado!" ⟨[], .closed 2⟩ (some "esp32")
    ⟨⟨[], .closed 0⟩, ⟨[], .closed 0⟩, ⟨[], false, false, none⟩, 0, 1⟩
  have h3 := c9_target_mutators ⟨"p1", "proj", some "esp32"⟩ "b1" "badchip" "idf.py reconfigure"
    "✅ CMake reconfigurado!" ⟨[], .closed 0⟩ (some "esp32")
    ⟨⟨[], .closed 0⟩, ⟨[], .closed 0⟩, ⟨[], false, false, none⟩, 0, 1⟩
  have h4 := c9_target_mutators ⟨"p1", "proj", some "esp32"⟩ "b2" "esp32c3" "idf.py reconfigure"
    "✅ CMake reconfigurado!" ⟨[], .closed 0⟩ (some "esp32")
    ⟨⟨[], .closed 0⟩, ⟨[], .closed 0⟩, ⟨[], false, false, none⟩, 0, 1⟩
  have h5 := c9_target_mutators ⟨"p1", "proj", none⟩ "b3" "esp32c3" "idf.py reconfigure"
    "✅ CMake reconfigurado!" ⟨[], .closed 0⟩ (some "esp32")
    ⟨⟨[], .closed 2⟩, ⟨[], .closed 0⟩, ⟨[], false, false, none⟩, 0, 1⟩
  have h6 := c9_target_mutators ⟨"p1", "proj", none⟩ "b4" "esp32c3" "idf.py reconfigure"
    "✅ CMake reconfigurado!" ⟨[], .closed 0⟩ (some "esp32")
    ⟨⟨[], .closed 0⟩, ⟨[], .closed 0⟩, ⟨[], false, false, none⟩, 0, 1⟩
  refine ⟨h1.1 "" (by decide) (by decide), h2.2.1 (JsError.commandFailed 2 "") (by decide),
    h3.2.2.1 (by decide), h1.2.2.2.1 "" (by decide),
    h2.2.2.2.2.1 (JsError.commandFailed 2 "") (by decide), h3.2.2.2.2.2.1,
    h4.2.2.2.2.2.2.1 (by decide),
    h5.2.2.2.2.2.2.2.1 (JsError.commandFailed 2 "") (by decide) (by decide),
    h6.2.2.2.2.2.2.2.2 "" (by decide) (by decide)⟩

/-- C10: a build request with no requested target against a project with
no recorded target proceeds with target `esp32`: the effective target is
`esp32`, the first sub-command invoked is `idf.py set-target esp32`, the
initial ledger record of the unit stores target `esp32` (as does the final
record), and the handler registers the unit (no validation error path
exists for the target in the build handler). -/
theorem c10_default_target (project : Project) (hp : project.target = none) (bid : String)
    (env : BuildEnv) :
    chooseTarget none project.target = "esp32"
    ∧ (buildHandler project bid none env).commands.head? = some "idf.py set-target esp32"
    ∧ ((buildHandler project bid none env).ledgerWrites.head?.map (fun r => r.target))
        = some "esp32"
    ∧ (buildHandler project bid none env).record.target = "esp32"
    ∧ (buildHandler project bid none env).ledgerWrites ≠ [] := by
  have hct : chooseTarget none project.target = "esp32" := by
    rw [hp]
    decide
  have hns : needSetTarget project.target (chooseTarget none project.target) = true := by
    rw [hp]
    rfl
  rw [hct] at hns
  obtain ⟨hw, _⟩ := buildHandler_ledgerWrites project bid none env
  refine ⟨hct, ?_, ?_, ?_, ?_⟩
  · rcases hst : runIdfCommandResult env.setTargetRun with er | out
    · simp [buildHandler, hns, hst, hct]
    · rcases hb : runIdfCommandResult env.buildRun with er | out2 <;>
        simp [buildHandler, buildPhase, hns, hst, hb, hct]
  · rw [hw]
    simp [hct]
  · rw [buildHandler_record_target project bid none env, hct]
  · rw [hw]
    simp

theorem c10_default_target_witness :
    chooseTarget none ((⟨"p1", "proj", none⟩ : Project).target) = "esp32"
    ∧ (buildHandler ⟨"p1", "proj", none⟩ "b1" none
        ⟨⟨[], .closed 0⟩, ⟨[], .closed 0⟩, ⟨[], false, false, none⟩, 0, 1⟩).commands.head?
        = some "idf.py set-target esp32"
    ∧ ((buildHandler ⟨"p1", "proj", none⟩ "b1" none
        ⟨⟨[], .closed 0⟩, ⟨[], .closed 0⟩, ⟨[], false, false, none⟩, 0, 1⟩).ledgerWrites.head?.map
          (fun r => r.target)) = some "esp32"
    ∧ (buildHandler ⟨"p1", "proj", none⟩ "b1" none
        ⟨⟨[], .closed 0⟩, ⟨[], .closed 0⟩, ⟨[], false, false, none⟩, 0, 1⟩).record.target
        = "esp32"
    ∧ (buildHandler ⟨"p1", "proj", none⟩ "b1" none
        ⟨⟨[], .closed 0⟩, ⟨[], .closed 0⟩, ⟨[], false, false, none⟩, 0, 1⟩).ledgerWrites ≠ [] :=
  c10_default_target ⟨"p1", "proj", none⟩ rfl "b1"
    ⟨⟨[], .closed 0⟩, ⟨[], .closed 0⟩, ⟨[], false, false, none⟩, 0, 1⟩
